import Mathlib

/-!
A shallow embedding of the core state machines of the native-token-transfers
Solana programs: the decaying-capacity rate limiter, the outbox and inbox
release state machines, the transceiver registry held in `Config`, trimmed
amounts, and the VAA-body byte accessors of the wormhole transceiver.

Machine integers are embedded as `Nat` (all quantities involved are
non-negative `u64`/`u16` values and timestamps are non-negative in every
scenario the programs run in); saturating `u64` arithmetic is noted where it
matters.  Fallible instructions return `Except NTTError`; an `error` result
models an atomically aborted transaction, so no state flows out of it.
Rust code whose panic matters (slice indexing in the VAA accessors) is
embedded with `Option`, `none` modelling the panic.
-/

/-- Error codes of the NTT manager and transceiver programs, as they appear
in the tests under `src/` and in the spec's error taxonomy (the `error.rs`
module itself is not among the provided sources). -/
inductive NTTError where
  | CantReleaseYet
  | MessageAlreadySent
  | TransferAlreadyRedeemed
  | TransferExceedsRateLimit
  | InvalidChainId
  | InvalidTransceiverPeer
  | InvalidNttManagerPeer
  | InvalidRecipientNttManager
  | ZeroThreshold
  | ThresholdTooHigh
  | TooManyTransceivers
  | AmountTooLarge
  | PeerNotRegistered
  deriving DecidableEq, Repr

set_option maxRecDepth 4000

/-- Modelled from the spec: `Bitmap` (its `bitmap.rs` module is not among
the provided sources; tests use `Bitmap::new()`, `Bitmap::from_value`,
`.get`).  A fixed-width (128-bit) set of boolean flags indexed by small
integer IDs, embedded as a list of 128 booleans. -/
def BITMAP_WIDTH : Nat := 128

/-- The bitmap itself: flag `i` is element `i` of the list. -/
structure Bitmap where
  bits : List Bool
  deriving DecidableEq, Repr

/-- `Bitmap::new()`: all flags cleared. -/
def Bitmap.new : Bitmap := ⟨List.replicate BITMAP_WIDTH false⟩

/-- `Bitmap.get(i)`: read flag `i` (false out of range). -/
def Bitmap.get (b : Bitmap) (i : Nat) : Bool := b.bits.getD i false

/-- `Bitmap.set(i, v)`: write flag `i`. -/
def Bitmap.set (b : Bitmap) (i : Nat) (v : Bool) : Bitmap := ⟨b.bits.set i v⟩

/-- `popcount`: the number of set flags (`count_enabled_votes` /
`Bitmap::len` in the source's callers). -/
def Bitmap.popcount (b : Bitmap) : Nat := b.bits.count true

/-- The rate-limit refill window, 24 hours of seconds. -/
def RATE_LIMIT_DURATION : Nat := 60 * 60 * 24

/-- Modelled from the spec: `RateLimitState` (its `queue/rate_limit.rs`
module is not among the provided sources; `capacity_at` is exercised by the
test helper `tests/cargo/src/helpers/rate_limit.rs` and `set_limit` by
`fuzz/fuzz_targets/fuzz_rate_limit.rs`).  `{ limit, capacity,
last_tx_timestamp }`: capacity grows linearly from its last recorded value
toward `limit` at rate `limit / RATE_LIMIT_DURATION` per second. -/
structure RateLimitState where
  limit : Nat
  capacity : Nat
  last_tx_timestamp : Nat
  deriving DecidableEq, Repr

/-- `RateLimitState::new(limit)`: starts at full capacity. -/
def RateLimitState.new (limit : Nat) : RateLimitState :=
  ⟨limit, limit, 0⟩

/-- Modelled from the spec: `capacity_at(now)` — the capacity accrued
linearly since `last_tx_timestamp`, clamped to `[0, limit]`. -/
def RateLimitState.capacity_at (rl : RateLimitState) (now : Nat) : Nat :=
  min (rl.capacity + (now - rl.last_tx_timestamp) * rl.limit / RATE_LIMIT_DURATION) rl.limit

/-- Modelled from the spec: `consume(now, amount)` — fails (returns `none`,
the caller surfaces `TransferExceedsRateLimit` or queues) unless
`capacity_at now ≥ amount`; on success the capacity snapshot becomes
`capacity_at now - amount` at timestamp `now`. -/
def RateLimitState.consume (rl : RateLimitState) (now amount : Nat) :
    Option RateLimitState :=
  if amount ≤ rl.capacity_at now then
    some ⟨rl.limit, rl.capacity_at now - amount, now⟩
  else
    none

/-- Modelled from the spec: `replenish(now, amount)` — adds back up to
`amount`, clamped so the resulting capacity does not exceed `limit`. -/
def RateLimitState.replenish (rl : RateLimitState) (now amount : Nat) :
    RateLimitState :=
  ⟨rl.limit, min (rl.capacity_at now + amount) rl.limit, now⟩

/-- Modelled from the spec: `set_limit(new_limit)` — recomputes the capacity
at call time first, then shifts it by the change in limit (saturating at 0),
and finally clamps it to the new limit.  Raising the limit by `d` therefore
adds exactly `d` instantaneous capacity (the consumed amount is preserved,
nothing more is fabricated), and lowering it caps the capacity at the new
limit. -/
def RateLimitState.set_limit (rl : RateLimitState) (now new_limit : Nat) :
    RateLimitState :=
  let current := rl.capacity_at now
  let adjusted :=
    if new_limit ≤ rl.limit then current - (rl.limit - new_limit)
    else current + (new_limit - rl.limit)
  ⟨new_limit, min adjusted new_limit, now⟩

/-- The `u64` bound used by the overflow checks. -/
def U64_SIZE : Nat := 2 ^ 64

/-- Modelled from the spec: `TrimmedAmount { amount, decimals }` (the
`ntt-messages` crate's `trimmed_amount.rs` is not among the provided
sources; it is exercised by `fuzz/fuzz_targets/fuzz_trimmed_amount.rs` and
by the outbox tests). -/
structure TrimmedAmount where
  amount : Nat
  decimals : Nat
  deriving DecidableEq, Repr

/-- Modelled from the spec: `trim(amount, from_decimals, to_decimals)` for
the trimming direction `from_decimals ≥ to_decimals` — divides by
`10 ^ (from_decimals - to_decimals)` with floor division, discarding the
remainder permanently.  (With `Nat` subtraction the other direction is the
identity; the spec calls it invalid for trimming and the theorems restrict
to `to_decimals ≤ from_decimals`.) -/
def TrimmedAmount.trim (amount from_decimals to_decimals : Nat) : TrimmedAmount :=
  ⟨amount / 10 ^ (from_decimals - to_decimals), to_decimals⟩

/-- Modelled from the spec: `untrim(to_decimals)` — scales back up by
`10 ^ (to_decimals - decimals)`, failing with `AmountTooLarge` if the result
overflows `u64`; scaling down again floors. -/
def TrimmedAmount.untrim (t : TrimmedAmount) (to_decimals : Nat) : Except NTTError Nat :=
  if t.decimals ≤ to_decimals then
    let r := t.amount * 10 ^ (to_decimals - t.decimals)
    if r < U64_SIZE then .ok r else .error .AmountTooLarge
  else
    .ok (t.amount / 10 ^ (t.decimals - to_decimals))

/-- `OutboxItem`: one record per outbound transfer, with the fields the test
`tests/transfer.rs` asserts on (`amount`, `sender`, `recipient_chain`,
`recipient_ntt_manager`, `recipient_address`, `release_timestamp`,
`released`).  Pubkeys and 32-byte addresses are embedded as `Nat`. -/
structure OutboxItem where
  amount : TrimmedAmount
  sender : Nat
  recipient_chain : Nat
  recipient_ntt_manager : Nat
  recipient_address : Nat
  release_timestamp : Nat
  released : Bitmap
  deriving DecidableEq, Repr

/-- Modelled from the spec: `OutboxItem::try_release(transceiver_index)`
(the `queue/outbox.rs` module is not among the provided sources).  Returns
`(item, false)` unchanged while `release_timestamp` is still in the future;
once the timestamp has passed, a released bit that is already set makes the
call fail — the test `ntt-transceiver/tests/transfer.rs`
(`test_cant_release_twice`) pins this error to `MessageAlreadySent` —
otherwise the bit is set and the message may be emitted. -/
def OutboxItem.try_release (item : OutboxItem) (now idx : Nat) :
    Except NTTError (OutboxItem × Bool) :=
  if now < item.release_timestamp then
    .ok (item, false)
  else if item.released.get idx then
    .error .MessageAlreadySent
  else
    .ok ({ item with released := item.released.set idx true }, true)

/-- Modelled from the spec: the transceiver's `release_outbound` instruction
(`ntt-transceiver/src/wormhole/instructions/release_outbound.rs` is declared
in `lib.rs` but its body is not among the provided sources).  The returned
boolean records whether the wormhole message was emitted; when
`try_release` reports "not ready yet" the instruction fails with
`CantReleaseYet` if `revert_on_delay` is set and otherwise silently returns
with nothing released, as pinned by `test_cant_release_queued`. -/
def release_outbound (item : OutboxItem) (now idx : Nat) (revert_on_delay : Bool) :
    Except NTTError (OutboxItem × Bool) :=
  match item.try_release now idx with
  | .error e => .error e
  | .ok (item', true) => .ok (item', true)
  | .ok (item', false) =>
      if revert_on_delay then .error .CantReleaseYet else .ok (item', false)

/-- `InboxItem`: one record per (source chain, manager-message id), tracking
the attestation quorum bitmap and the terminal `released` flag of the spec's
data model. -/
structure InboxItem where
  amount : Nat
  recipient_address : Nat
  votes : Bitmap
  released : Bool
  deriving DecidableEq, Repr

/-- Modelled from the spec: recording an attestation (the manager's
`redeem.rs` is not among the provided sources) — an idempotent set-operation
on the attestation bitmap; the `released` flag is untouched. -/
def InboxItem.record_attestation (item : InboxItem) (idx : Nat) : InboxItem :=
  { item with votes := item.votes.set idx true }

/-- Modelled from the spec: the manager's `release_inbound` instruction
(`instructions/release_inbound.rs` is not among the provided sources; the
test `tests/receive.rs` (`test_receive`) pins that a released item fails
with `TransferAlreadyRedeemed` even with `revert_when_not_ready = false`).
Returns the updated item together with the number of tokens credited: a
released item always fails with `TransferAlreadyRedeemed`; an item without
quorum fails with `CantReleaseYet` when `revert_when_not_ready` is set and
otherwise silently returns crediting nothing; otherwise the `released` flag
flips to `true` and `amount` tokens are credited. -/
def release_inbound (threshold : Nat) (item : InboxItem) (revert_when_not_ready : Bool) :
    Except NTTError (InboxItem × Nat) :=
  if item.released then
    .error .TransferAlreadyRedeemed
  else if item.votes.popcount < threshold then
    if revert_when_not_ready then .error .CantReleaseYet else .ok (item, 0)
  else
    .ok ({ item with released := true }, item.amount)

/-- The transceiver-registry part of the global `Config` singleton
(`threshold`, `enabled_transceivers`, `next_transceiver_id`), the fields the
registry operations act on. -/
structure Config where
  threshold : Nat
  enabled_transceivers : Bitmap
  next_transceiver_id : Nat
  deriving DecidableEq, Repr

/-- The registry fields set by `initialize_config_and_rate_limit`
(`src/instructions/initialize.rs`): `next_transceiver_id = 0`,
`threshold = 1`, `enabled_transceivers = Bitmap::new()`. -/
def init_config : Config :=
  ⟨1, Bitmap.new, 0⟩

/-- Modelled from the spec: `register_transceiver` (the manager's admin
instruction module is not among the provided sources; the test
`tests/admin.rs` pins that re-registration retains the old ID).  A fresh
transceiver is assigned `next_transceiver_id` — failing
`TooManyTransceivers` when that would exceed the bitmap width — and its
enabled bit is set; a previously registered transceiver (`reuse = some id`)
just has its retained bit re-set.  The threshold is untouched. -/
def register_transceiver (c : Config) (reuse : Option Nat) : Except NTTError Config :=
  match reuse with
  | some id => .ok { c with enabled_transceivers := c.enabled_transceivers.set id true }
  | none =>
      if BITMAP_WIDTH ≤ c.next_transceiver_id then
        .error .TooManyTransceivers
      else
        .ok { c with
              enabled_transceivers := c.enabled_transceivers.set c.next_transceiver_id true,
              next_transceiver_id := c.next_transceiver_id + 1 }

/-- Modelled from the spec: `deregister_transceiver` — clears the enabled
bit only (the ID stays reserved); if that drops the enabled count below the
current threshold, the threshold is clamped down to the new count, kept at
least 1 as pinned by `tests/admin.rs` (`test_reregister_all_transceivers`
deregisters every transceiver and observes `threshold = 1`). -/
def deregister_transceiver (c : Config) (id : Nat) : Config :=
  let enabled := c.enabled_transceivers.set id false
  let n := enabled.popcount
  if n < c.threshold then
    { c with enabled_transceivers := enabled, threshold := max 1 n }
  else
    { c with enabled_transceivers := enabled }

/-- Modelled from the spec: `set_threshold(new)` — fails `ZeroThreshold` on
0 and `ThresholdTooHigh` when the new threshold exceeds the enabled
count. -/
def set_threshold (c : Config) (new : Nat) : Except NTTError Config :=
  if new = 0 then .error .ZeroThreshold
  else if c.enabled_transceivers.popcount < new then .error .ThresholdTooHigh
  else .ok { c with threshold := new }

/-- One registry operation, as submitted to the admin surface. -/
inductive AdminOp where
  | register (reuse : Option Nat)
  | deregister (id : Nat)
  | threshold (new : Nat)
  deriving DecidableEq, Repr

/-- Run one admin operation; a failing operation aborts its transaction
atomically, leaving the config unchanged. -/
def AdminOp.apply (c : Config) : AdminOp → Config
  | .register reuse => (register_transceiver c reuse).toOption.getD c
  | .deregister id => deregister_transceiver c id
  | .threshold new => (set_threshold c new).toOption.getD c

/-- The config reached from the post-`initialize` state by a sequence of
admin operations. -/
def run_admin (ops : List AdminOp) : Config :=
  ops.foldl AdminOp.apply init_config

/-- `self.span[lo..hi]` on a Rust byte slice: defined exactly when
`hi ≤ len` (for the constant ranges used here, `lo ≤ hi`); out of range the
program aborts with a slice-indexing panic, modelled as `none`. -/
def vaa_slice (s : List Nat) (lo hi : Nat) : Option (List Nat) :=
  if hi ≤ s.length then some ((s.drop lo).take (hi - lo)) else none

/-- `u16::from_be_bytes` on a two-byte slice. -/
def u16_be (b : List Nat) : Nat := b.getD 0 0 * 256 + b.getD 1 0

/-- `VaaBodyBytes::emitter_chain` (`ntt-transceiver/src/vaa_body.rs`):
big-endian `u16` at bytes `[8..10]`. -/
def VaaBody.emitter_chain (s : List Nat) : Option Nat :=
  (vaa_slice s 8 10).map u16_be

/-- `VaaBodyBytes::emitter_address`: bytes `[10..42]`. -/
def VaaBody.emitter_address (s : List Nat) : Option (List Nat) :=
  vaa_slice s 10 42

/-- `VaaBodyBytes::id`: bytes `[121..153]`. -/
def VaaBody.id (s : List Nat) : Option (List Nat) :=
  vaa_slice s 121 153

/-- `VaaBodyBytes::to_chain`: big-endian `u16` at bytes `[264..266]`. -/
def VaaBody.to_chain (s : List Nat) : Option Nat :=
  (vaa_slice s 264 266).map u16_be

/-- `VaaBodyBytes::message_data`: `&span[51..]`, which panics exactly when
`51 > len`. -/
def VaaBody.message_data (s : List Nat) : Option (List Nat) :=
  if 51 ≤ s.length then some (s.drop 51) else none

/-- The account validation of the transceiver's `receive_message`
instructions (`ntt-transceiver/src/wormhole/instructions/receive_message.rs`):
the config constraint evaluates `to_chain` (so a too-short span panics —
`none` — before any typed error) and compares it against `config.chain_id`
(`InvalidChainId`); the peer account constraint then compares the VAA's
`emitter_address` against the registered transceiver peer for
`emitter_chain` (`InvalidTransceiverPeer`); on success a
`ValidatedTransceiverMessage` carrying `(from_chain, id)` is created — an
error creates nothing. -/
def receive_message_checks (span : List Nat) (config_chain_id : Nat)
    (peer_address : List Nat) : Option (Except NTTError (Nat × List Nat)) :=
  match VaaBody.to_chain span with
  | none => none
  | some tc =>
      if tc ≠ config_chain_id then some (.error .InvalidChainId)
      else
        match VaaBody.emitter_chain span, VaaBody.emitter_address span, VaaBody.id span with
        | some ec, some ea, some i =>
            if ea ≠ peer_address then some (.error .InvalidTransceiverPeer)
            else some (.ok (ec, i))
        | _, _, _ => none

/-- Modelled from the spec: the manager-side validation of `redeem` (the
manager's `redeem.rs` is not among the provided sources; the errors are
pinned by `tests/receive.rs` `test_wrong_manager_peer` and
`test_wrong_recipient_ntt_manager`): the claimed source manager must match
the registered manager peer for the source chain (`InvalidNttManagerPeer`),
and the message's recipient manager must be this program
(`InvalidRecipientNttManager`).  An error aborts the transaction with no
state mutation. -/
def redeem_checks (source_ntt_manager recipient_ntt_manager : List Nat)
    (manager_peer_address program_id : List Nat) : Except NTTError Unit :=
  if source_ntt_manager ≠ manager_peer_address then .error .InvalidNttManagerPeer
  else if recipient_ntt_manager ≠ program_id then .error .InvalidRecipientNttManager
  else .ok ()

/-- The manager's pair of rate limiters for one remote chain: the outbound
limiter and that chain's inbound limiter. -/
structure ManagerLimits where
  outbound : RateLimitState
  inbound : RateLimitState
  deriving DecidableEq, Repr

/-- Modelled from the spec: the rate-limit effect of a successful `redeem`
of an inbound transfer (the manager's `redeem.rs` is not among the provided
sources; `tests/cancel_flow.rs` `test_cancel` pins the arithmetic): the
inbound limiter consumes the amount and the outbound limiter is replenished
by the same amount, clamped at its limit. -/
def ManagerLimits.redeem (st : ManagerLimits) (now amount : Nat) :
    Option ManagerLimits :=
  (st.inbound.consume now amount).map fun ib =>
    ⟨st.outbound.replenish now amount, ib⟩

/-- Modelled from the spec: the rate-limit effect of a successful (immediate,
non-queued) outbound transfer: the outbound limiter consumes the amount and
the inbound limiter is replenished by the same amount, clamped at its
limit. -/
def ManagerLimits.transfer (st : ManagerLimits) (now amount : Nat) :
    Option ManagerLimits :=
  (st.outbound.consume now amount).map fun ob =>
    ⟨ob, st.inbound.replenish now amount⟩

/-! ## Helper lemmas -/

theorem capacity_at_now (limit c t : Nat) (hc : c ≤ limit) :
    (RateLimitState.mk limit c t).capacity_at t = c := by
  unfold RateLimitState.capacity_at
  simp [hc]

theorem capacity_at_le_limit (rl : RateLimitState) (t : Nat) :
    rl.capacity_at t ≤ rl.limit :=
  min_le_right _ _

theorem set_limit_capacity_eq (rl : RateLimitState) (now new_limit : Nat) :
    (rl.set_limit now new_limit).capacity =
      min (if new_limit ≤ rl.limit then rl.capacity_at now - (rl.limit - new_limit)
           else rl.capacity_at now + (new_limit - rl.limit)) new_limit := rfl

theorem count_true_set_mono (l : List Bool) (i : Nat) :
    l.count true ≤ (l.set i true).count true := by
  induction l generalizing i with
  | nil => simp
  | cons a l ih =>
      cases i with
      | zero => cases a <;> simp [List.count_cons]
      | succ n =>
          simp only [List.set_cons_succ, List.count_cons]
          exact Nat.add_le_add_right (ih n) _

/-! ## Claim theorems -/

/-- C5: with no intervening consume or replenish, `capacity_at` is monotone
in the query time and never exceeds `limit`; the capacity accrues linearly
at rate `limit / RATE_LIMIT_DURATION` per second, clamped to `[0, limit]`
(which is what `capacity_at` computes). -/
theorem capacity_at_monotone_and_bounded (rl : RateLimitState) (t1 t2 : Nat)
    (_h1 : rl.last_tx_timestamp ≤ t1) (h12 : t1 ≤ t2) :
    rl.capacity_at t1 ≤ rl.capacity_at t2 ∧ ∀ t, rl.capacity_at t ≤ rl.limit := by
  constructor
  · unfold RateLimitState.capacity_at
    refine min_le_min ?_ le_rfl
    exact Nat.add_le_add_left
      (Nat.div_le_div_right (Nat.mul_le_mul_right _ (Nat.sub_le_sub_right h12 _))) _
  · intro t
    exact min_le_right _ _

/-- Witness for C5 at a concrete limiter and query times. -/
theorem capacity_at_monotone_and_bounded_witness :
    (RateLimitState.mk 86400 0 0).capacity_at 100 ≤
        (RateLimitState.mk 86400 0 0).capacity_at 200 ∧
    ∀ t, (RateLimitState.mk 86400 0 0).capacity_at t ≤ 86400 :=
  capacity_at_monotone_and_bounded (RateLimitState.mk 86400 0 0) 100 200
    (by decide) (by decide)

/-- C7: `set_limit` recomputes the capacity at call time and then adjusts
it: the resulting capacity never exceeds the new limit (for every pair of
old and new limits), lowering the limit never leaves more capacity than had
organically accrued, and raising it by `d` adds at most `d`; every later
capacity query also stays within the new limit. -/
theorem set_limit_caps_capacity (rl : RateLimitState) (now new_limit : Nat) :
    (rl.set_limit now new_limit).limit = new_limit ∧
    (rl.set_limit now new_limit).last_tx_timestamp = now ∧
    (rl.set_limit now new_limit).capacity ≤ new_limit ∧
    (new_limit ≤ rl.limit →
      (rl.set_limit now new_limit).capacity ≤ rl.capacity_at now) ∧
    (rl.limit ≤ new_limit →
      (rl.set_limit now new_limit).capacity ≤ rl.capacity_at now + (new_limit - rl.limit)) ∧
    ∀ t, (rl.set_limit now new_limit).capacity_at t ≤ new_limit := by
  refine ⟨rfl, rfl, min_le_right _ _, ?_, ?_, ?_⟩
  · intro hle
    rw [set_limit_capacity_eq, if_pos hle]
    exact le_trans (min_le_left _ _) (Nat.sub_le _ _)
  · intro hge
    rw [set_limit_capacity_eq]
    rcases Nat.lt_or_ge rl.limit new_limit with hlt | hge'
    · rw [if_neg (Nat.not_le.mpr hlt)]
      exact min_le_left _ _
    · have heq : new_limit = rl.limit := le_antisymm hge' hge
      subst heq
      rw [if_pos le_rfl]
      exact le_trans (min_le_left _ _) (le_trans (Nat.sub_le _ _) (Nat.le_add_right _ _))
  · intro t
    exact min_le_right _ _

/-- Witness for C7 at concrete limiters, lowering and raising the limit. -/
theorem set_limit_caps_capacity_witness :
    ((RateLimitState.new 100).set_limit 5 40).capacity ≤ 40 ∧
    ((RateLimitState.new 100).set_limit 5 40).capacity ≤
        (RateLimitState.new 100).capacity_at 5 ∧
    ((RateLimitState.new 100).set_limit 5 140).capacity ≤
        (RateLimitState.new 100).capacity_at 5 + (140 - 100) :=
  ⟨(set_limit_caps_capacity (RateLimitState.new 100) 5 40).2.2.1,
   (set_limit_caps_capacity (RateLimitState.new 100) 5 40).2.2.2.1 (by decide),
   (set_limit_caps_capacity (RateLimitState.new 100) 5 140).2.2.2.2.1 (by decide)⟩

/-- C1: an `InboxItem` whose `released` flag is set is a strict one-shot:
every further `release_inbound`, with either `revert_when_not_ready` flag,
fails with `TransferAlreadyRedeemed` and can credit no tokens; recording
further attestations never touches the flag, and the only transition
`release_inbound` ever performs on the flag is `false → true`. -/
theorem inbox_release_one_shot (threshold : Nat) (item : InboxItem)
    (revert_when_not_ready : Bool) (h : item.released = true) :
    release_inbound threshold item revert_when_not_ready
        = .error .TransferAlreadyRedeemed ∧
    (∀ item' credited,
      release_inbound threshold item revert_when_not_ready ≠ .ok (item', credited)) ∧
    (∀ idx, (item.record_attestation idx).released = true) ∧
    ∀ thr rv item' credited,
      release_inbound thr item rv = .ok (item', credited) →
        item'.released = true ∨ item' = item := by
  have herr : ∀ thr rv, release_inbound thr item rv
      = .error .TransferAlreadyRedeemed := by
    intro thr rv
    unfold release_inbound
    rw [if_pos h]
  refine ⟨herr _ _, ?_, ?_, ?_⟩
  · intro item' credited hok
    rw [herr] at hok
    exact Except.noConfusion hok
  · intro idx
    simpa [InboxItem.record_attestation] using h
  · intro thr rv item' credited hok
    rw [herr] at hok
    exact Except.noConfusion hok

/-- Witness for C1 at a concrete released inbox item. -/
theorem inbox_release_one_shot_witness :
    release_inbound 1 ⟨1000, 5, Bitmap.new.set 0 true, true⟩ false
        = .error .TransferAlreadyRedeemed ∧
    release_inbound 1 ⟨1000, 5, Bitmap.new.set 0 true, true⟩ true
        = .error .TransferAlreadyRedeemed :=
  ⟨(inbox_release_one_shot 1 ⟨1000, 5, Bitmap.new.set 0 true, true⟩ false rfl).1,
   (inbox_release_one_shot 1 ⟨1000, 5, Bitmap.new.set 0 true, true⟩ true rfl).1⟩

/-- C4: while an outbox item's `release_timestamp` is still in the future,
`release_outbound` with `revert_on_delay = true` fails with
`CantReleaseYet`, and with `revert_on_delay = false` it succeeds, emits no
message, and returns the item unchanged (so every released bit stays as it
was — unset, for a queued item). -/
theorem release_outbound_queued (item : OutboxItem) (now idx : Nat)
    (h : now < item.release_timestamp) :
    release_outbound item now idx true = .error .CantReleaseYet ∧
    release_outbound item now idx false = .ok (item, false) := by
  have ht : item.try_release now idx = .ok (item, false) := by
    unfold OutboxItem.try_release
    rw [if_pos h]
  constructor <;> simp [release_outbound, ht]

/-- Witness for C4 at a concrete queued outbox item. -/
theorem release_outbound_queued_witness :
    release_outbound ⟨⟨7, 7⟩, 0, 2, 0, 1, 1000, Bitmap.new⟩ 10 0 true
        = .error .CantReleaseYet ∧
    release_outbound ⟨⟨7, 7⟩, 0, 2, 0, 1, 1000, Bitmap.new⟩ 10 0 false
        = .ok (⟨⟨7, 7⟩, 0, 2, 0, 1, 1000, Bitmap.new⟩, false) :=
  release_outbound_queued ⟨⟨7, 7⟩, 0, 2, 0, 1, 1000, Bitmap.new⟩ 10 0 (by decide)

/-- C3 counterexample: at a concrete outbox item whose released bit 0 is
already set (and whose release timestamp has passed), `release_outbound` is
not a successful no-op — it fails, with `MessageAlreadySent`, under either
`revert_on_delay` flag. -/
theorem release_outbound_second_call_not_noop :
    release_outbound ⟨⟨1, 7⟩, 0, 2, 0, 1, 5, Bitmap.new.set 0 true⟩ 10 0 false
        = .error .MessageAlreadySent ∧
    release_outbound ⟨⟨1, 7⟩, 0, 2, 0, 1, 5, Bitmap.new.set 0 true⟩ 10 0 true
        = .error .MessageAlreadySent ∧
    ∀ r, release_outbound ⟨⟨1, 7⟩, 0, 2, 0, 1, 5, Bitmap.new.set 0 true⟩ 10 0 false
        ≠ .ok r :=
  ⟨rfl, rfl, fun _ hok => Except.noConfusion hok⟩

/-- C3 as amended: once an outbox item's released bit for a transceiver is
set and the release timestamp has passed, a further `release_outbound` for
that transceiver fails with `MessageAlreadySent` (rather than succeeding as
a no-op) under either `revert_on_delay` flag, and emits no second
message. -/
theorem release_outbound_already_released (item : OutboxItem) (now idx : Nat)
    (revert_on_delay : Bool) (hts : item.release_timestamp ≤ now)
    (hbit : item.released.get idx = true) :
    release_outbound item now idx revert_on_delay = .error .MessageAlreadySent := by
  have ht : item.try_release now idx = .error .MessageAlreadySent := by
    unfold OutboxItem.try_release
    rw [if_neg (Nat.not_lt.mpr hts), if_pos hbit]
  simp [release_outbound, ht]

/-- Witness for amended C3 at a concrete already-released outbox item. -/
theorem release_outbound_already_released_witness :
    release_outbound ⟨⟨2, 7⟩, 0, 2, 0, 1, 5, Bitmap.new.set 0 true⟩ 6 0 true
        = .error .MessageAlreadySent :=
  release_outbound_already_released ⟨⟨2, 7⟩, 0, 2, 0, 1, 5, Bitmap.new.set 0 true⟩
    6 0 true (by decide) (by decide)

theorem admin_op_preserves_inv (c : Config) (op : AdminOp)
    (h1 : 1 ≤ c.threshold)
    (h2 : c.threshold ≤ max 1 c.enabled_transceivers.popcount) :
    1 ≤ (op.apply c).threshold ∧
    (op.apply c).threshold ≤ max 1 (op.apply c).enabled_transceivers.popcount := by
  cases op with
  | register reuse =>
      cases reuse with
      | some id =>
          refine ⟨h1, le_trans h2 (max_le_max le_rfl ?_)⟩
          exact count_true_set_mono _ _
      | none =>
          by_cases hcap : BITMAP_WIDTH ≤ c.next_transceiver_id
          · have hst : AdminOp.apply c (.register none) = c := by
              simp [AdminOp.apply, register_transceiver, hcap, Except.toOption, Option.getD]
            rw [hst]
            exact ⟨h1, h2⟩
          · have hst : AdminOp.apply c (.register none) =
                { c with
                  enabled_transceivers :=
                    c.enabled_transceivers.set c.next_transceiver_id true,
                  next_transceiver_id := c.next_transceiver_id + 1 } := by
              simp [AdminOp.apply, register_transceiver, hcap, Except.toOption, Option.getD]
            rw [hst]
            exact ⟨h1, le_trans h2 (max_le_max le_rfl (count_true_set_mono _ _))⟩
  | deregister id =>
      simp only [AdminOp.apply, deregister_transceiver]
      by_cases hlt : (c.enabled_transceivers.set id false).popcount < c.threshold
      · rw [if_pos hlt]
        exact ⟨le_max_left _ _, le_rfl⟩
      · rw [if_neg hlt]
        exact ⟨h1, le_trans (Nat.not_lt.mp hlt) (le_max_right _ _)⟩
  | threshold new =>
      by_cases hz : new = 0
      · have hst : AdminOp.apply c (.threshold new) = c := by
          simp [AdminOp.apply, set_threshold, hz, Except.toOption, Option.getD]
        rw [hst]; exact ⟨h1, h2⟩
      · by_cases hhi : c.enabled_transceivers.popcount < new
        · have hst : AdminOp.apply c (.threshold new) = c := by
            simp [AdminOp.apply, set_threshold, hz, hhi, Except.toOption, Option.getD]
          rw [hst]; exact ⟨h1, h2⟩
        · have hst : AdminOp.apply c (.threshold new) = { c with threshold := new } := by
            simp [AdminOp.apply, set_threshold, hz, hhi, Except.toOption, Option.getD]
          rw [hst]
          exact ⟨Nat.one_le_iff_ne_zero.mpr hz,
            le_trans (Nat.not_lt.mp hhi) (le_max_right _ _)⟩

theorem foldl_admin_inv (ops : List AdminOp) :
    ∀ c : Config, 1 ≤ c.threshold →
      c.threshold ≤ max 1 c.enabled_transceivers.popcount →
      1 ≤ (ops.foldl AdminOp.apply c).threshold ∧
      (ops.foldl AdminOp.apply c).threshold
        ≤ max 1 (ops.foldl AdminOp.apply c).enabled_transceivers.popcount := by
  induction ops with
  | nil => exact fun c h1 h2 => ⟨h1, h2⟩
  | cons op ops ih =>
      intro c h1 h2
      have h := admin_op_preserves_inv c op h1 h2
      exact ih (op.apply c) h.1 h.2

/-- C2 counterexample: the state reached by `initialize` alone (the empty
admin-operation sequence) already violates
`threshold ≤ popcount(enabled_transceivers)` — `initialize` sets
`threshold = 1` with an empty transceiver bitmap, so the popcount is 0. -/
theorem run_admin_nil_violates_popcount_bound :
    (run_admin []).threshold = 1 ∧
    (run_admin []).enabled_transceivers.popcount = 0 ∧
    ¬ (run_admin []).threshold ≤ (run_admin []).enabled_transceivers.popcount := by
  refine ⟨rfl, ?_, ?_⟩ <;> decide

/-- C2 as amended: every config reachable from `initialize` by admin
operations satisfies `1 ≤ threshold ≤ max 1 (popcount enabled)` (the upper
bound `popcount` itself holds only once a transceiver is enabled), and a
deregistration that drops the enabled popcount below the current threshold
forces the threshold down to that popcount, floored at 1. -/
theorem run_admin_threshold_invariant (ops : List AdminOp) :
    (1 ≤ (run_admin ops).threshold ∧
      (run_admin ops).threshold
        ≤ max 1 (run_admin ops).enabled_transceivers.popcount) ∧
    ∀ c : Config, ∀ id : Nat,
      (deregister_transceiver c id).threshold =
        if (c.enabled_transceivers.set id false).popcount < c.threshold
        then max 1 (c.enabled_transceivers.set id false).popcount
        else c.threshold := by
  constructor
  · exact foldl_admin_inv ops init_config (by decide) (by decide)
  · intro c id
    unfold deregister_transceiver
    by_cases hlt : (c.enabled_transceivers.set id false).popcount < c.threshold
    · rw [if_pos hlt, if_pos hlt]
    · rw [if_neg hlt, if_neg hlt]

theorem consume_eq_some (rl : RateLimitState) (now amount : Nat)
    (h : amount ≤ rl.capacity_at now) :
    rl.consume now amount = some ⟨rl.limit, rl.capacity_at now - amount, now⟩ := by
  unfold RateLimitState.consume
  rw [if_pos h]

theorem consume_eq_none (rl : RateLimitState) (now amount : Nat)
    (h : rl.capacity_at now < amount) :
    rl.consume now amount = none := by
  unfold RateLimitState.consume
  rw [if_neg (Nat.not_le.mpr h)]

theorem replenish_capacity_at_now (rl : RateLimitState) (now amount : Nat) :
    (rl.replenish now amount).capacity_at now
      = min (rl.capacity_at now + amount) rl.limit := by
  unfold RateLimitState.replenish
  exact capacity_at_now _ _ _ (min_le_right _ _)

/-- C6: a successful redeem of amount `a` consumes `a` from the source
chain's inbound limiter and replenishes the outbound limiter by `a`,
clamped at the outbound limit (so replenishing at full capacity leaves it
unchanged); a redeem fails to consume exactly when the inbound capacity is
short; symmetrically, a successful outbound transfer of `b` consumes `b`
from the outbound limiter and replenishes the inbound limiter by `b` under
the same clamp. -/
theorem redeem_transfer_rate_limit_pairing (st : ManagerLimits) (now a : Nat) :
    (∀ st', st.redeem now a = some st' →
      st'.inbound.capacity_at now = st.inbound.capacity_at now - a ∧
      st'.outbound.capacity_at now
        = min (st.outbound.capacity_at now + a) st.outbound.limit ∧
      (st.outbound.capacity_at now = st.outbound.limit →
        st'.outbound.capacity_at now = st.outbound.capacity_at now)) ∧
    (st.redeem now a = none ↔ st.inbound.capacity_at now < a) ∧
    ∀ st', st.transfer now a = some st' →
      st'.outbound.capacity_at now = st.outbound.capacity_at now - a ∧
      st'.inbound.capacity_at now
        = min (st.inbound.capacity_at now + a) st.inbound.limit ∧
      (st.inbound.capacity_at now = st.inbound.limit →
        st'.inbound.capacity_at now = st.inbound.capacity_at now) := by
  refine ⟨?_, ?_, ?_⟩
  · intro st' hok
    rcases Nat.lt_or_ge (st.inbound.capacity_at now) a with hlt | hge
    · rw [ManagerLimits.redeem, consume_eq_none _ _ _ hlt] at hok
      exact Option.noConfusion hok
    · rw [ManagerLimits.redeem, consume_eq_some _ _ _ hge] at hok
      simp only [Option.map] at hok
      injection hok with hok
      subst hok
      refine ⟨?_, ?_, ?_⟩
      · exact capacity_at_now _ _ _
          (le_trans (Nat.sub_le _ _) (capacity_at_le_limit _ _))
      · exact replenish_capacity_at_now _ _ _
      · intro hfull
        rw [replenish_capacity_at_now, hfull]
        exact min_eq_right (Nat.le_add_right _ _)
  · constructor
    · intro hnone
      by_contra hge
      rw [ManagerLimits.redeem, consume_eq_some _ _ _ (Nat.not_lt.mp hge)] at hnone
      exact Option.noConfusion hnone
    · intro hlt
      rw [ManagerLimits.redeem, consume_eq_none _ _ _ hlt]
      rfl
  · intro st' hok
    rcases Nat.lt_or_ge (st.outbound.capacity_at now) a with hlt | hge
    · rw [ManagerLimits.transfer, consume_eq_none _ _ _ hlt] at hok
      exact Option.noConfusion hok
    · rw [ManagerLimits.transfer, consume_eq_some _ _ _ hge] at hok
      simp only [Option.map] at hok
      injection hok with hok
      subst hok
      refine ⟨?_, ?_, ?_⟩
      · exact capacity_at_now _ _ _
          (le_trans (Nat.sub_le _ _) (capacity_at_le_limit _ _))
      · exact replenish_capacity_at_now _ _ _
      · intro hfull
        rw [replenish_capacity_at_now, hfull]
        exact min_eq_right (Nat.le_add_right _ _)

/-- Witness for C6: redeeming 1000 at full outbound capacity consumes 1000
inbound and leaves the outbound capacity unchanged. -/
theorem redeem_transfer_rate_limit_pairing_witness :
    (ManagerLimits.mk (RateLimitState.new 10000) (RateLimitState.new 10000)).redeem 0 1000
        = some ⟨⟨10000, 10000, 0⟩, ⟨10000, 9000, 0⟩⟩ ∧
    (⟨⟨10000, 10000, 0⟩, ⟨10000, 9000, 0⟩⟩ : ManagerLimits).inbound.capacity_at 0
        = (ManagerLimits.mk (RateLimitState.new 10000)
            (RateLimitState.new 10000)).inbound.capacity_at 0 - 1000 ∧
    (⟨⟨10000, 10000, 0⟩, ⟨10000, 9000, 0⟩⟩ : ManagerLimits).outbound.capacity_at 0
        = (ManagerLimits.mk (RateLimitState.new 10000)
            (RateLimitState.new 10000)).outbound.capacity_at 0 :=
  ⟨rfl,
   by
    have h := (redeem_transfer_rate_limit_pairing
      (ManagerLimits.mk (RateLimitState.new 10000) (RateLimitState.new 10000)) 0 1000).1
      ⟨⟨10000, 10000, 0⟩, ⟨10000, 9000, 0⟩⟩ rfl
    exact h.1,
   by
    have h := (redeem_transfer_rate_limit_pairing
      (ManagerLimits.mk (RateLimitState.new 10000) (RateLimitState.new 10000)) 0 1000).1
      ⟨⟨10000, 10000, 0⟩, ⟨10000, 9000, 0⟩⟩ rfl
    exact h.2.2 rfl⟩

/-- C8: for `from_decimals ≥ to_decimals`, `trim` divides by
`10 ^ (from_decimals - to_decimals)` with floor division, and the round
trip `untrim (trim x)` back to the original decimals truncates — it
succeeds (no overflow is possible on the way back up), never rounds up, and
satisfies `untrim (trim x) ≤ x`. -/
theorem trim_untrim_truncates (x from_decimals to_decimals : Nat)
    (hd : to_decimals ≤ from_decimals) (hx : x < U64_SIZE) :
    (TrimmedAmount.trim x from_decimals to_decimals).amount
        = x / 10 ^ (from_decimals - to_decimals) ∧
    (TrimmedAmount.trim x from_decimals to_decimals).untrim from_decimals
        = .ok (x / 10 ^ (from_decimals - to_decimals)
                * 10 ^ (from_decimals - to_decimals)) ∧
    x / 10 ^ (from_decimals - to_decimals) * 10 ^ (from_decimals - to_decimals)
        ≤ x := by
  have hle : x / 10 ^ (from_decimals - to_decimals) * 10 ^ (from_decimals - to_decimals)
      ≤ x := Nat.div_mul_le_self _ _
  refine ⟨rfl, ?_, hle⟩
  unfold TrimmedAmount.untrim TrimmedAmount.trim
  simp only [hd, if_pos]
  rw [if_pos (lt_of_le_of_lt hle hx)]

/-- Witness for C8 at `x = 123456789`, 9 decimals trimmed to 7. -/
theorem trim_untrim_truncates_witness :
    (TrimmedAmount.trim 123456789 9 7).amount = 123456789 / 10 ^ 2 ∧
    (TrimmedAmount.trim 123456789 9 7).untrim 9 = .ok (123456789 / 10 ^ 2 * 10 ^ 2) ∧
    123456789 / 10 ^ 2 * 10 ^ 2 ≤ 123456789 :=
  trim_untrim_truncates 123456789 9 7 (by decide) (by decide)

theorem vaa_slice_of_le (s : List Nat) (lo hi : Nat) (h : hi ≤ s.length) :
    vaa_slice s lo hi = some ((s.drop lo).take (hi - lo)) := by
  unfold vaa_slice
  rw [if_pos h]

theorem vaa_slice_of_gt (s : List Nat) (lo hi : Nat) (h : s.length < hi) :
    vaa_slice s lo hi = none := by
  unfold vaa_slice
  rw [if_neg (Nat.not_le.mpr h)]

/-- C9: attestation and redeem validation errors.  Against the transceiver's
`receive_message` account checks: a message whose `to_chain` differs from
the local chain id fails with `InvalidChainId`, and one whose VAA emitter
address differs from the registered transceiver peer fails with
`InvalidTransceiverPeer`.  Against the manager's redeem checks: a claimed
source manager differing from the registered manager peer fails with
`InvalidNttManagerPeer`, and a recipient manager that is not this program
fails with `InvalidRecipientNttManager`.  Each failing case yields an
`error` result, which carries no created account and no state change: the
transaction is rejected atomically. -/
theorem attestation_validation_errors (span : List Nat) (config_chain_id : Nat)
    (peer_address source_ntt_manager recipient_ntt_manager
      manager_peer_address program_id : List Nat)
    (h : 266 ≤ span.length) :
    (∀ tc, VaaBody.to_chain span = some tc → tc ≠ config_chain_id →
      receive_message_checks span config_chain_id peer_address
        = some (.error .InvalidChainId)) ∧
    (∀ ea, VaaBody.to_chain span = some config_chain_id →
      VaaBody.emitter_address span = some ea → ea ≠ peer_address →
      receive_message_checks span config_chain_id peer_address
        = some (.error .InvalidTransceiverPeer)) ∧
    (source_ntt_manager ≠ manager_peer_address →
      redeem_checks source_ntt_manager recipient_ntt_manager
        manager_peer_address program_id = .error .InvalidNttManagerPeer) ∧
    (source_ntt_manager = manager_peer_address →
      recipient_ntt_manager ≠ program_id →
      redeem_checks source_ntt_manager recipient_ntt_manager
        manager_peer_address program_id = .error .InvalidRecipientNttManager) := by
  have hec : VaaBody.emitter_chain span = some (u16_be ((span.drop 8).take 2)) := by
    unfold VaaBody.emitter_chain
    rw [vaa_slice_of_le _ _ _ (by omega)]
    rfl
  have hid : VaaBody.id span = some ((span.drop 121).take 32) := by
    unfold VaaBody.id
    rw [vaa_slice_of_le _ _ _ (by omega)]
  refine ⟨?_, ?_, ?_, ?_⟩
  · intro tc htc hne
    unfold receive_message_checks
    rw [htc]
    simp [hne]
  · intro ea htc hea hne
    unfold receive_message_checks
    rw [htc]
    simp only [ne_eq, not_true_eq_false, if_neg, not_false_eq_true, reduceIte]
    rw [hec, hea, hid]
    simp [hne]
  · intro hne
    unfold redeem_checks
    rw [if_pos hne]
  · intro heq hne
    unfold redeem_checks
    rw [if_neg (by simpa using heq), if_pos hne]

/-- Witness for C9: a 266-byte zero span targeted at chain 0 against a
config for chain 5 fails `InvalidChainId`; with matching chain but a wrong
peer it fails `InvalidTransceiverPeer`; concrete manager addresses exercise
the two redeem errors. -/
theorem attestation_validation_errors_witness :
    receive_message_checks (List.replicate 266 0) 5 []
        = some (.error .InvalidChainId) ∧
    receive_message_checks (List.replicate 266 0) 0 [7]
        = some (.error .InvalidTransceiverPeer) ∧
    redeem_checks [1] [2] [3] [2] = .error .InvalidNttManagerPeer ∧
    redeem_checks [3] [2] [3] [4] = .error .InvalidRecipientNttManager :=
  ⟨(attestation_validation_errors (List.replicate 266 0) 5 [] [1] [2] [3] [2]
      (by simp)).1 0 rfl (by decide),
   (attestation_validation_errors (List.replicate 266 0) 0 [7] [1] [2] [3] [2]
      (by simp)).2.1 (List.replicate 32 0) rfl rfl (by decide),
   (attestation_validation_errors (List.replicate 266 0) 5 [] [1] [2] [3] [2]
      (by simp)).2.2.1 (by decide),
   (attestation_validation_errors (List.replicate 266 0) 5 [] [3] [2] [3] [4]
      (by simp)).2.2.2 rfl (by decide)⟩

/-- C10: the `VaaBodyBytes` accessors read fixed offsets up to 266 with no
bounds guard: on every span of length at least 266 all five are defined,
while on any shorter span `to_chain` — which `receive_message`'s config
constraint evaluates first — hits a slice-indexing panic (`none`), so
`receive_message` on a too-short VAA body panics rather than failing with
any typed `NTTError`. -/
theorem vaa_accessors_totality (span : List Nat) (config_chain_id : Nat)
    (peer_address : List Nat) :
    (266 ≤ span.length →
      (VaaBody.emitter_chain span).isSome ∧
      (VaaBody.emitter_address span).isSome ∧
      (VaaBody.id span).isSome ∧
      (VaaBody.to_chain span).isSome ∧
      (VaaBody.message_data span).isSome) ∧
    (span.length < 266 →
      VaaBody.to_chain span = none ∧
      receive_message_checks span config_chain_id peer_address = none ∧
      ∀ e, receive_message_checks span config_chain_id peer_address
        ≠ some (.error e)) := by
  constructor
  · intro h
    refine ⟨?_, ?_, ?_, ?_, ?_⟩
    · rw [VaaBody.emitter_chain, vaa_slice_of_le _ _ _ (by omega)]; rfl
    · rw [VaaBody.emitter_address, vaa_slice_of_le _ _ _ (by omega)]; rfl
    · rw [VaaBody.id, vaa_slice_of_le _ _ _ (by omega)]; rfl
    · rw [VaaBody.to_chain, vaa_slice_of_le _ _ _ (by omega)]; rfl
    · rw [VaaBody.message_data, if_pos (by omega)]; rfl
  · intro h
    have htc : VaaBody.to_chain span = none := by
      rw [VaaBody.to_chain, vaa_slice_of_gt _ _ _ (by omega)]
      rfl
    have hrm : receive_message_checks span config_chain_id peer_address = none := by
      unfold receive_message_checks
      rw [htc]
    exact ⟨htc, hrm, fun e he => Option.noConfusion (hrm ▸ he)⟩

/-- Witness for C10: a 266-byte span supports every accessor; a 100-byte
span panics in `to_chain` and hence in `receive_message`. -/
theorem vaa_accessors_totality_witness :
    (VaaBody.to_chain (List.replicate 266 1)).isSome ∧
    (VaaBody.message_data (List.replicate 266 1)).isSome ∧
    VaaBody.to_chain (List.replicate 100 1) = none ∧
    receive_message_checks (List.replicate 100 1) 0 [] = none :=
  ⟨((vaa_accessors_totality (List.replicate 266 1) 0 []).1 (by simp)).2.2.2.1,
   ((vaa_accessors_totality (List.replicate 266 1) 0 []).1 (by simp)).2.2.2.2,
   ((vaa_accessors_totality (List.replicate 100 1) 0 []).2 (by simp)).1,
   ((vaa_accessors_totality (List.replicate 100 1) 0 []).2 (by simp)).2.1⟩
